import Mathlib

/-!
Shallow embedding of the request lifecycle manager of `swupdd`
(`src/swupdd-main.c`): daemon state, option translation, the bus method
handlers, child-exit handling, cancellation, the child-side file-descriptor
redirection performed before `execvp`, and one iteration of the idle event
loop.  Fallible external facts (message payload shape, `pipe2`/`fork`
outcomes, signal emission success) are passed in as explicit parameters.
-/

namespace Swupdd

/-- `#define SWUPD_CLIENT "swupd"`. -/
def SWUPD_CLIENT : String := "swupd"

/-- `#define TIMEOUT_EXIT_SEC 30`. -/
def TIMEOUT_EXIT_SEC : Nat := 30

/-- POSIX signal number of SIGINT. -/
def SIGINT : Nat := 2

/-- POSIX signal number of SIGKILL. -/
def SIGKILL : Nat := 9

/-- Linux value of `CLD_EXITED` for `signalfd_siginfo.ssi_code`. -/
def CLD_EXITED : Nat := 1

/-- The `method_t` enumeration of operation kinds. -/
inductive method_t where
  | METHOD_NOTSET
  | METHOD_CHECK_UPDATE
  | METHOD_UPDATE
  | METHOD_VERIFY
  | METHOD_BUNDLE_ADD
  | METHOD_BUNDLE_REMOVE
  deriving DecidableEq, Repr

/-- `daemon_state_t`: bus handle (opaque identifier), child pid
(`0` = no child), operation kind in flight. -/
structure daemon_state_t where
  bus : Nat
  child : Nat
  method : method_t
  deriving DecidableEq, Repr

/-- `_method_str_map`: labels used in the `requestCompleted` signal
(`NULL` at index `METHOD_NOTSET` becomes `none`). -/
def _method_str_map : method_t → Option String
  | .METHOD_NOTSET => none
  | .METHOD_CHECK_UPDATE => some "checkUpdate"
  | .METHOD_UPDATE => some "update"
  | .METHOD_VERIFY => some "verify"
  | .METHOD_BUNDLE_ADD => some "bundleAdd"
  | .METHOD_BUNDLE_REMOVE => some "bundleRemove"

/-- `_method_opt_map`: sub-command tokens passed to swupd
(`NULL` at index `METHOD_NOTSET` becomes `none`). -/
def _method_opt_map : method_t → Option String
  | .METHOD_NOTSET => none
  | .METHOD_CHECK_UPDATE => some "check-update"
  | .METHOD_UPDATE => some "update"
  | .METHOD_VERIFY => some "verify"
  | .METHOD_BUNDLE_ADD => some "bundle-add"
  | .METHOD_BUNDLE_REMOVE => some "bundle-remove"

/-- Modelled from the spec: `list_append_data` of the repository's list
module (`list.c`/`list.h` are not under `src/`).  The spec fixes
append-at-tail order: positional arguments and option tokens are
"appended after all option tokens, in the order received". -/
def list_append_data (l : List String) (s : String) : List String := l ++ [s]

/-- Modelled from the spec: `list_to_strv(list_head(l))` converts the
argument list, from its head, into the argv array in order; on the Lean
list model this is the identity. -/
def list_to_strv (l : List String) : List String := l

/-- A D-Bus variant value as carried in the `a{sv}` options dictionary:
the daemon only ever reads string- or boolean-typed variants. -/
inductive OptVal where
  | str (v : String)
  | bool (b : Bool)
  deriving DecidableEq, Repr

/-- Errors of the option-reading helpers: `sd_bus_message_enter_container`
fails when the variant does not hold the expected type signature. -/
inductive bus_err where
  | type_mismatch
  deriving DecidableEq, Repr

/-- `is_in_array`: membership of `key` in a `NULL`-terminated string array
(`NULL` array becomes the empty list). -/
def is_in_array (key : String) : List String → Bool
  | [] => false
  | a :: rest => if key = a then true else is_in_array key rest

/-- `bus_message_read_option_string`: enter the variant as `"s"` (fails on a
non-string variant), then append `--optname` and the value. -/
def bus_message_read_option_string (strlist : List String) (value : OptVal)
    (optname : String) : Except bus_err (List String) :=
  match value with
  | .str v =>
      let option := "--" ++ optname
      .ok (list_append_data (list_append_data strlist option) v)
  | .bool _ => .error .type_mismatch

/-- `bus_message_read_option_bool`: enter the variant as `"b"` (fails on a
non-boolean variant), then append `--optname` only when the value is true. -/
def bus_message_read_option_bool (strlist : List String) (value : OptVal)
    (optname : String) : Except bus_err (List String) :=
  match value with
  | .bool b =>
      if b then .ok (list_append_data strlist ("--" ++ optname)) else .ok strlist
  | .str _ => .error .type_mismatch

/-- `bus_message_read_options`: walk the `a{sv}` dictionary entries; a name on
the string allow-list is read as a string option, else a name on the boolean
allow-list is read as a boolean option, else the variant is skipped. -/
def bus_message_read_options (strlist : List String)
    (entries : List (String × OptVal))
    (opts_str opts_bool : List String) : Except bus_err (List String) :=
  match entries with
  | [] => .ok strlist
  | (argname, value) :: rest =>
      if is_in_array argname opts_str then
        match bus_message_read_option_string strlist value argname with
        | .error e => .error e
        | .ok strlist2 => bus_message_read_options strlist2 rest opts_str opts_bool
      else if is_in_array argname opts_bool then
        match bus_message_read_option_bool strlist value argname with
        | .error e => .error e
        | .ok strlist2 => bus_message_read_options strlist2 rest opts_str opts_bool
      else
        bus_message_read_options strlist rest opts_str opts_bool

/-- Outcome of the `pipe2`/`fork` pair inside `run_swupd`, supplied by the
environment: `pipe2` failure (with its `errno`), `fork` failure (with its
`errno`), or a successful fork returning the child's pid to the parent. -/
inductive SpawnOutcome where
  | pipeFail (errno : Nat)
  | forkFail (errno : Nat)
  | forkOk (pid : Nat)
  deriving DecidableEq, Repr

/-- `run_swupd`: on pipe or fork failure return `-errno` without touching the
daemon state; on a successful fork record the child pid and the operation
kind in the daemon state.  The second component is the argv of the process
actually forked (`none` when no child was created). -/
def run_swupd (method : method_t) (args : List String) (context : daemon_state_t)
    (outcome : SpawnOutcome) : Except Int daemon_state_t × Option (List String) :=
  match outcome with
  | .pipeFail e => (.error (-(e : Int)), none)
  | .forkFail e => (.error (-(e : Int)), none)
  | .forkOk pid =>
      (.ok { context with child := pid, method := method }, some (list_to_strv args))

/-- Result of one bus method handler: the boolean reply sent with
`sd_bus_reply_method_return(m, "b", (r >= 0))`, the daemon state after the
call, and the argv of the child spawned by the call (`none` if no process
was forked). -/
structure MethodResult where
  reply : Bool
  state : daemon_state_t
  spawned : Option (List String)
  deriving DecidableEq, Repr

/-- `method_update`: busy check on `context->child`, then options
(string allow-list `url, contenturl, versionurl, log`, no boolean options),
then `run_swupd(METHOD_UPDATE, ...)`. -/
def method_update (context : daemon_state_t) (options : List (String × OptVal))
    (outcome : SpawnOutcome) : MethodResult :=
  if context.child ≠ 0 then
    { reply := false, state := context, spawned := none }
  else
    let args := list_append_data [] SWUPD_CLIENT
    let args := list_append_data args ((_method_opt_map .METHOD_UPDATE).getD "")
    match bus_message_read_options args options ["url", "contenturl", "versionurl", "log"] [] with
    | .error _ => { reply := false, state := context, spawned := none }
    | .ok args2 =>
        match run_swupd .METHOD_UPDATE args2 context outcome with
        | (.error _, sp) => { reply := false, state := context, spawned := sp }
        | (.ok ctx, sp) => { reply := true, state := ctx, spawned := sp }

/-- `method_verify`: busy check, options (string allow-list
`url, contenturl, versionurl, log`; boolean allow-list `fix`), then
`run_swupd(METHOD_VERIFY, ...)`. -/
def method_verify (context : daemon_state_t) (options : List (String × OptVal))
    (outcome : SpawnOutcome) : MethodResult :=
  if context.child ≠ 0 then
    { reply := false, state := context, spawned := none }
  else
    let args := list_append_data [] SWUPD_CLIENT
    let args := list_append_data args ((_method_opt_map .METHOD_VERIFY).getD "")
    match bus_message_read_options args options ["url", "contenturl", "versionurl", "log"] ["fix"] with
    | .error _ => { reply := false, state := context, spawned := none }
    | .ok args2 =>
        match run_swupd .METHOD_VERIFY args2 context outcome with
        | (.error _, sp) => { reply := false, state := context, spawned := sp }
        | (.ok ctx, sp) => { reply := true, state := ctx, spawned := sp }

/-- `method_check_update`: busy check, options (string allow-list `url`),
one positional bundle name, then `run_swupd(METHOD_CHECK_UPDATE, ...)`. -/
def method_check_update (context : daemon_state_t) (options : List (String × OptVal))
    (bundle : String) (outcome : SpawnOutcome) : MethodResult :=
  if context.child ≠ 0 then
    { reply := false, state := context, spawned := none }
  else
    let args := list_append_data [] SWUPD_CLIENT
    let args := list_append_data args ((_method_opt_map .METHOD_CHECK_UPDATE).getD "")
    match bus_message_read_options args options ["url"] [] with
    | .error _ => { reply := false, state := context, spawned := none }
    | .ok args2 =>
        let args3 := list_append_data args2 bundle
        match run_swupd .METHOD_CHECK_UPDATE args3 context outcome with
        | (.error _, sp) => { reply := false, state := context, spawned := sp }
        | (.ok ctx, sp) => { reply := true, state := ctx, spawned := sp }

/-- `method_bundle_add`: busy check, options (string allow-list `url`;
boolean allow-list `list`), then the `as` array of bundle names appended in
order, then `run_swupd(METHOD_BUNDLE_ADD, ...)`. -/
def method_bundle_add (context : daemon_state_t) (options : List (String × OptVal))
    (bundles : List String) (outcome : SpawnOutcome) : MethodResult :=
  if context.child ≠ 0 then
    { reply := false, state := context, spawned := none }
  else
    let args := list_append_data [] SWUPD_CLIENT
    let args := list_append_data args ((_method_opt_map .METHOD_BUNDLE_ADD).getD "")
    match bus_message_read_options args options ["url"] ["list"] with
    | .error _ => { reply := false, state := context, spawned := none }
    | .ok args2 =>
        let args3 := bundles.foldl list_append_data args2
        match run_swupd .METHOD_BUNDLE_ADD args3 context outcome with
        | (.error _, sp) => { reply := false, state := context, spawned := sp }
        | (.ok ctx, sp) => { reply := true, state := ctx, spawned := sp }

/-- `method_bundle_remove`: busy check, options (string allow-list `url`),
one positional bundle name, then `run_swupd(METHOD_BUNDLE_REMOVE, ...)`. -/
def method_bundle_remove (context : daemon_state_t) (options : List (String × OptVal))
    (bundle : String) (outcome : SpawnOutcome) : MethodResult :=
  if context.child ≠ 0 then
    { reply := false, state := context, spawned := none }
  else
    let args := list_append_data [] SWUPD_CLIENT
    let args := list_append_data args ((_method_opt_map .METHOD_BUNDLE_REMOVE).getD "")
    match bus_message_read_options args options ["url"] [] with
    | .error _ => { reply := false, state := context, spawned := none }
    | .ok args2 =>
        let args3 := list_append_data args2 bundle
        match run_swupd .METHOD_BUNDLE_REMOVE args3 context outcome with
        | (.error _, sp) => { reply := false, state := context, spawned := sp }
        | (.ok ctx, sp) => { reply := true, state := ctx, spawned := sp }

/-- Result of `method_cancel`: boolean reply, state after the call, and the
`(pid, signal)` pairs delivered via `kill`. -/
structure CancelResult where
  reply : Bool
  state : daemon_state_t
  signals : List (Nat × Nat)
  deriving DecidableEq, Repr

/-- `method_cancel`: with no child reply false (`-ECHILD`); otherwise read
`force` (`none` models a failed `sd_bus_message_read`, replying false) and
send `SIGKILL` when forced, else `SIGINT`.  The state is never modified. -/
def method_cancel (context : daemon_state_t) (force : Option Bool) : CancelResult :=
  let child := context.child
  if child = 0 then
    { reply := false, state := context, signals := [] }
  else
    match force with
    | none => { reply := false, state := context, signals := [] }
    | some f =>
        if f then
          { reply := true, state := context, signals := [(child, SIGKILL)] }
        else
          { reply := true, state := context, signals := [(child, SIGINT)] }

/-- The fields of `struct signalfd_siginfo` read by `on_child_exit`. -/
structure signalfd_siginfo where
  ssi_code : Nat
  ssi_status : Nat
  ssi_pid : Nat
  deriving DecidableEq, Repr

/-- One `requestCompleted` D-Bus signal: operation label and exit status. -/
structure requestCompleted_signal where
  method_label : Option String
  status : Nat
  deriving DecidableEq, Repr

/-- `on_child_exit`: compute the reported status (raw exit code on
`CLD_EXITED`, else `128 + signal number`), clear the daemon state, and make
exactly one `sd_bus_emit_signal` call carrying the label of the operation
that was in flight.  The second component is the list of emit calls made. -/
def on_child_exit (si : signalfd_siginfo) (context : daemon_state_t) :
    daemon_state_t × List requestCompleted_signal :=
  let child_method := context.method
  let status : Nat := if si.ssi_code = CLD_EXITED then si.ssi_status else 128 + si.ssi_status
  ({ context with child := 0, method := .METHOD_NOTSET },
   [{ method_label := _method_str_map child_method, status := status }])

/-- `on_child_exit` together with the outcome of the emission itself:
`emitOk = false` models `sd_bus_emit_signal` returning an error, in which
case the signal is not delivered.  The second component is the list of
signals actually delivered on the bus. -/
def on_child_exit_run (si : signalfd_siginfo) (context : daemon_state_t)
    (emitOk : Bool) : daemon_state_t × List requestCompleted_signal :=
  let res := on_child_exit si context
  (res.1, if emitOk then res.2 else [])

/-- Targets a child file descriptor can point to right after `fork`:
the streams inherited from the daemon, the two pipe ends, or closed. -/
inductive FdTarget where
  | parentStdin
  | parentStdout
  | parentStderr
  | pipeRead
  | pipeWrite
  | closedFd
  deriving DecidableEq, Repr

/-- `STDOUT_FILENO`. -/
def STDOUT_FILENO : Nat := 1

/-- `STDERR_FILENO`. -/
def STDERR_FILENO : Nat := 2

/-- `dup2(oldfd, newfd)` on a file-descriptor table: `newfd` becomes a copy
of whatever `oldfd` currently refers to. -/
def dup2 (table : Nat → FdTarget) (oldfd newfd : Nat) : Nat → FdTarget :=
  fun fd => if fd = newfd then table oldfd else table fd

/-- `close(fd0)` on a file-descriptor table. -/
def closeFd (table : Nat → FdTarget) (fd0 : Nat) : Nat → FdTarget :=
  fun fd => if fd = fd0 then .closedFd else table fd

/-- The child branch of `run_swupd`, in source order:
`dup2(STDOUT_FILENO, STDERR_FILENO)`, then `dup2(fds[1], STDOUT_FILENO)`
(the `EINTR` retry loop ends in one successful `dup2`), then
`close(fds[1])` and `close(fds[0])`, before `execvp`.
`rfd`/`wfd` are `fds[0]`/`fds[1]` from `pipe2`. -/
def child_redirect (table : Nat → FdTarget) (rfd wfd : Nat) : Nat → FdTarget :=
  let t1 := dup2 table STDOUT_FILENO STDERR_FILENO
  let t2 := dup2 t1 wfd STDOUT_FILENO
  closeFd (closeFd t2 wfd) rfd

/-- The child's descriptor table right after `fork`, with the pipe read end
on descriptor 3 and the write end on descriptor 4 (the first free slots). -/
def initial_child_fds : Nat → FdTarget :=
  fun fd =>
    if fd = 0 then .parentStdin
    else if fd = 1 then .parentStdout
    else if fd = 2 then .parentStderr
    else if fd = 3 then .pipeRead
    else if fd = 4 then .pipeWrite
    else .closedFd

/-- Observables of one iteration of `run_bus_event_loop`: the timeout passed
to `sd_event_run` (`none` models the infinite `(uint64_t) -1`), and whether
the `sd_bus_try_close` idle path is entered given the value `r` returned by
`sd_event_run`. -/
structure LoopIteration where
  wait_timeout : Option Nat
  close_attempted : Bool
  deriving DecidableEq, Repr

/-- One iteration of `run_bus_event_loop`:
`sd_event_run(event, exiting ? (uint64_t) -1 : TIMEOUT_EXIT_SEC * 1000000)`
and the guard `if (!context->method && r == 0 && !exiting)` in front of the
`sd_bus_try_close` idle-shutdown attempt. -/
def run_bus_event_loop_iter (method : method_t) (exiting : Bool) (r : Int) :
    LoopIteration :=
  { wait_timeout := if exiting then none else some (TIMEOUT_EXIT_SEC * 1000000),
    close_attempted := decide (method = .METHOD_NOTSET) && decide (r = 0) && !exiting }

/-- The asynchronous events that can reach the daemon state: one per bus
method handler (with the payload the handler reads and the spawn outcome),
cancellation, and the child-exit notification. -/
inductive BusEvent where
  | evUpdate (options : List (String × OptVal)) (outcome : SpawnOutcome)
  | evVerify (options : List (String × OptVal)) (outcome : SpawnOutcome)
  | evCheckUpdate (options : List (String × OptVal)) (bundle : String) (outcome : SpawnOutcome)
  | evBundleAdd (options : List (String × OptVal)) (bundles : List String) (outcome : SpawnOutcome)
  | evBundleRemove (options : List (String × OptVal)) (bundle : String) (outcome : SpawnOutcome)
  | evCancel (force : Option Bool)
  | evChildExit (si : signalfd_siginfo)

/-- A successful `fork` never returns pid 0 to the parent. -/
def spawn_pid_ok : SpawnOutcome → Bool
  | .forkOk pid => pid != 0
  | _ => true

/-- Environment well-formedness of an event: the only OS fact used is that a
successful fork reports a nonzero child pid. -/
def validEvent : BusEvent → Bool
  | .evUpdate _ o => spawn_pid_ok o
  | .evVerify _ o => spawn_pid_ok o
  | .evCheckUpdate _ _ o => spawn_pid_ok o
  | .evBundleAdd _ _ o => spawn_pid_ok o
  | .evBundleRemove _ _ o => spawn_pid_ok o
  | .evCancel _ => true
  | .evChildExit _ => true

/-- The daemon state after one event is handled. -/
def stepState (s : daemon_state_t) : BusEvent → daemon_state_t
  | .evUpdate opts o => (method_update s opts o).state
  | .evVerify opts o => (method_verify s opts o).state
  | .evCheckUpdate opts bundle o => (method_check_update s opts bundle o).state
  | .evBundleAdd opts bundles o => (method_bundle_add s opts bundles o).state
  | .evBundleRemove opts bundle o => (method_bundle_remove s opts bundle o).state
  | .evCancel force => (method_cancel s force).state
  | .evChildExit si => (on_child_exit si s).1

/-- States reachable from the zero-initialised `daemon_state_t` of `main`
(any bus handle, no child, `METHOD_NOTSET`) by valid events. -/
inductive Reachable : daemon_state_t → Prop where
  | init (b : Nat) : Reachable { bus := b, child := 0, method := .METHOD_NOTSET }
  | step {s : daemon_state_t} (e : BusEvent) (hv : validEvent e = true)
      (hs : Reachable s) : Reachable (stepState s e)

/-- Specification vocabulary: an options-dictionary entry is well typed for
the two allow-lists when a name on the string list carries a string variant
and a name only on the boolean list carries a boolean variant. -/
def wellTypedEntry (os ob : List String) (e : String × OptVal) : Bool :=
  if is_in_array e.1 os then
    match e.2 with
    | .str _ => true
    | .bool _ => false
  else if is_in_array e.1 ob then
    match e.2 with
    | .bool _ => true
    | .str _ => false
  else true

/-- Specification vocabulary (the spec's per-option emission rule, to be
compared with `bus_message_read_options`): an allowed string option yields
the pair `--name, value`; an allowed boolean option yields `--name` exactly
when true; anything else yields no token. -/
def optionTokensSpec (os ob : List String) (e : String × OptVal) : List String :=
  if is_in_array e.1 os then
    match e.2 with
    | .str v => ["--" ++ e.1, v]
    | .bool _ => []
  else if is_in_array e.1 ob then
    match e.2 with
    | .bool b => if b then ["--" ++ e.1] else []
    | .str _ => []
  else []

/-! ### Helper lemmas -/

/-- On well-typed entries, reading the options succeeds and appends exactly
the per-entry tokens of `optionTokensSpec`, in order. -/
lemma read_options_ok (os ob : List String) :
    ∀ (entries : List (String × OptVal)) (init : List String),
      (∀ e ∈ entries, wellTypedEntry os ob e = true) →
      bus_message_read_options init entries os ob =
        Except.ok (init ++ entries.flatMap (optionTokensSpec os ob)) := by
  intro entries
  induction entries with
  | nil =>
      intro init _
      simp [bus_message_read_options]
  | cons hd tl ih =>
      intro init h
      obtain ⟨name, w⟩ := hd
      have hhd : wellTypedEntry os ob (name, w) = true := h _ (by simp)
      have htl : ∀ e ∈ tl, wellTypedEntry os ob e = true :=
        fun e he => h e (by simp [he])
      by_cases hs : is_in_array name os = true
      · cases w with
        | str v =>
            simp [bus_message_read_options, hs, bus_message_read_option_string,
              list_append_data, ih _ htl, optionTokensSpec]
        | bool b =>
            exfalso
            simp [wellTypedEntry, hs] at hhd
      · by_cases hb : is_in_array name ob = true
        · cases w with
          | bool b =>
              cases b <;>
                simp [bus_message_read_options, hs, hb, bus_message_read_option_bool,
                  list_append_data, ih _ htl, optionTokensSpec]
          | str v =>
              exfalso
              simp [wellTypedEntry, hs, hb] at hhd
        · simp [bus_message_read_options, hs, hb, ih _ htl, optionTokensSpec]

/-- `method_update` either leaves the state alone or, on a successful fork,
records the child pid together with `METHOD_UPDATE`. -/
lemma method_update_state (s : daemon_state_t) (opts : List (String × OptVal))
    (o : SpawnOutcome) :
    (method_update s opts o).state = s ∨
    ∃ pid, o = .forkOk pid ∧
      (method_update s opts o).state = { s with child := pid, method := .METHOD_UPDATE } := by
  unfold method_update
  by_cases hc : s.child ≠ 0
  · simp [hc]
  · simp only [hc, if_false]
    split
    · simp
    · cases o with
      | pipeFail e => simp [run_swupd]
      | forkFail e => simp [run_swupd]
      | forkOk pid => exact Or.inr ⟨pid, rfl, by simp [run_swupd]⟩

/-- `method_verify` state shape. -/
lemma method_verify_state (s : daemon_state_t) (opts : List (String × OptVal))
    (o : SpawnOutcome) :
    (method_verify s opts o).state = s ∨
    ∃ pid, o = .forkOk pid ∧
      (method_verify s opts o).state = { s with child := pid, method := .METHOD_VERIFY } := by
  unfold method_verify
  by_cases hc : s.child ≠ 0
  · simp [hc]
  · simp only [hc, if_false]
    split
    · simp
    · cases o with
      | pipeFail e => simp [run_swupd]
      | forkFail e => simp [run_swupd]
      | forkOk pid => exact Or.inr ⟨pid, rfl, by simp [run_swupd]⟩

/-- `method_check_update` state shape. -/
lemma method_check_update_state (s : daemon_state_t) (opts : List (String × OptVal))
    (bundle : String) (o : SpawnOutcome) :
    (method_check_update s opts bundle o).state = s ∨
    ∃ pid, o = .forkOk pid ∧
      (method_check_update s opts bundle o).state =
        { s with child := pid, method := .METHOD_CHECK_UPDATE } := by
  unfold method_check_update
  by_cases hc : s.child ≠ 0
  · simp [hc]
  · simp only [hc, if_false]
    split
    · simp
    · cases o with
      | pipeFail e => simp [run_swupd]
      | forkFail e => simp [run_swupd]
      | forkOk pid => exact Or.inr ⟨pid, rfl, by simp [run_swupd]⟩

/-- `method_bundle_add` state shape. -/
lemma method_bundle_add_state (s : daemon_state_t) (opts : List (String × OptVal))
    (bundles : List String) (o : SpawnOutcome) :
    (method_bundle_add s opts bundles o).state = s ∨
    ∃ pid, o = .forkOk pid ∧
      (method_bundle_add s opts bundles o).state =
        { s with child := pid, method := .METHOD_BUNDLE_ADD } := by
  unfold method_bundle_add
  by_cases hc : s.child ≠ 0
  · simp [hc]
  · simp only [hc, if_false]
    split
    · simp
    · cases o with
      | pipeFail e => simp [run_swupd]
      | forkFail e => simp [run_swupd]
      | forkOk pid => exact Or.inr ⟨pid, rfl, by simp [run_swupd]⟩

/-- `method_bundle_remove` state shape. -/
lemma method_bundle_remove_state (s : daemon_state_t) (opts : List (String × OptVal))
    (bundle : String) (o : SpawnOutcome) :
    (method_bundle_remove s opts bundle o).state = s ∨
    ∃ pid, o = .forkOk pid ∧
      (method_bundle_remove s opts bundle o).state =
        { s with child := pid, method := .METHOD_BUNDLE_REMOVE } := by
  unfold method_bundle_remove
  by_cases hc : s.child ≠ 0
  · simp [hc]
  · simp only [hc, if_false]
    split
    · simp
    · cases o with
      | pipeFail e => simp [run_swupd]
      | forkFail e => simp [run_swupd]
      | forkOk pid => exact Or.inr ⟨pid, rfl, by simp [run_swupd]⟩

/-- `method_cancel` never modifies the daemon state. -/
lemma method_cancel_state (s : daemon_state_t) (force : Option Bool) :
    (method_cancel s force).state = s := by
  unfold method_cancel
  rcases force with _ | f
  · by_cases h : s.child = 0 <;> simp [h]
  · by_cases h : s.child = 0 <;> cases f <;> simp [h]

/-- The daemon-state invariant: the operation kind is `METHOD_NOTSET`
exactly when no child pid is recorded. -/
def StateInv (s : daemon_state_t) : Prop :=
  s.method = .METHOD_NOTSET ↔ s.child = 0

/-- Every reachable daemon state satisfies the invariant. -/
lemma reachable_inv : ∀ s, Reachable s → StateInv s := by
  intro s h
  induction h with
  | init b => simp [StateInv]
  | step e hv hs ih =>
      rename_i s'
      cases e with
      | evUpdate opts o =>
          rcases method_update_state s' opts o with h1 | ⟨pid, rfl, h1⟩
          · simpa [stepState, h1] using ih
          · have hpid : pid ≠ 0 := by
              simpa [validEvent, spawn_pid_ok] using hv
            simp [stepState, h1, StateInv, hpid]
      | evVerify opts o =>
          rcases method_verify_state s' opts o with h1 | ⟨pid, rfl, h1⟩
          · simpa [stepState, h1] using ih
          · have hpid : pid ≠ 0 := by
              simpa [validEvent, spawn_pid_ok] using hv
            simp [stepState, h1, StateInv, hpid]
      | evCheckUpdate opts bundle o =>
          rcases method_check_update_state s' opts bundle o with h1 | ⟨pid, rfl, h1⟩
          · simpa [stepState, h1] using ih
          · have hpid : pid ≠ 0 := by
              simpa [validEvent, spawn_pid_ok] using hv
            simp [stepState, h1, StateInv, hpid]
      | evBundleAdd opts bundles o =>
          rcases method_bundle_add_state s' opts bundles o with h1 | ⟨pid, rfl, h1⟩
          · simpa [stepState, h1] using ih
          · have hpid : pid ≠ 0 := by
              simpa [validEvent, spawn_pid_ok] using hv
            simp [stepState, h1, StateInv, hpid]
      | evBundleRemove opts bundle o =>
          rcases method_bundle_remove_state s' opts bundle o with h1 | ⟨pid, rfl, h1⟩
          · simpa [stepState, h1] using ih
          · have hpid : pid ≠ 0 := by
              simpa [validEvent, spawn_pid_ok] using hv
            simp [stepState, h1, StateInv, hpid]
      | evCancel force =>
          simpa [stepState, method_cancel_state] using ih
      | evChildExit si =>
          simp [stepState, on_child_exit, StateInv]

/-! ### Claims -/

/-- C1: for every bus method operation (check-update, update, verify,
bundle-add, bundle-remove), a request arriving while the daemon state
records an active child (operation kind ≠ none) is answered immediately
with the boolean false, spawns no process, and leaves every field of the
daemon state (bus handle, child pid, operation kind) unchanged. -/
theorem busy_request_rejected (s : daemon_state_t) (hr : Reachable s)
    (hm : s.method ≠ .METHOD_NOTSET) :
    (∀ opts o, method_update s opts o = ⟨false, s, none⟩) ∧
    (∀ opts o, method_verify s opts o = ⟨false, s, none⟩) ∧
    (∀ opts bundle o, method_check_update s opts bundle o = ⟨false, s, none⟩) ∧
    (∀ opts bundles o, method_bundle_add s opts bundles o = ⟨false, s, none⟩) ∧
    (∀ opts bundle o, method_bundle_remove s opts bundle o = ⟨false, s, none⟩) := by
  have hc : s.child ≠ 0 := fun h0 => hm ((reachable_inv s hr).2 h0)
  refine ⟨?_, ?_, ?_, ?_, ?_⟩ <;> intros <;>
    simp [method_update, method_verify, method_check_update, method_bundle_add,
      method_bundle_remove, hc]

/-- C1 witness: a state with a running update request is reachable, and in
it a second update call is rejected without side effects. -/
theorem busy_request_rejected_witness :
    Reachable { bus := 0, child := 1, method := .METHOD_UPDATE } ∧
    method_update { bus := 0, child := 1, method := .METHOD_UPDATE } [] (.forkOk 2) =
      ⟨false, { bus := 0, child := 1, method := .METHOD_UPDATE }, none⟩ := by
  have hstep : stepState { bus := 0, child := 0, method := .METHOD_NOTSET }
      (.evUpdate [] (.forkOk 1)) = { bus := 0, child := 1, method := .METHOD_UPDATE } := by
    decide
  have hr : Reachable { bus := 0, child := 1, method := .METHOD_UPDATE } := by
    have h := Reachable.step (s := { bus := 0, child := 0, method := .METHOD_NOTSET })
      (.evUpdate [] (.forkOk 1)) (by decide) (.init 0)
    rwa [hstep] at h
  exact ⟨hr, (busy_request_rejected _ hr (by decide)).1 [] _⟩

/-- C2: in every reachable daemon state the operation kind equals
`METHOD_NOTSET` iff the recorded child pid is zero; a successful spawn sets
both fields together and the exit-notification handler clears both
together. -/
theorem state_fields_coupled :
    (∀ s, Reachable s → (s.method = .METHOD_NOTSET ↔ s.child = 0)) ∧
    (∀ m args s pid, (run_swupd m args s (.forkOk pid)).1 =
      .ok { s with child := pid, method := m }) ∧
    (∀ si s, (on_child_exit si s).1.child = 0 ∧
      (on_child_exit si s).1.method = .METHOD_NOTSET) :=
  ⟨fun s h => reachable_inv s h, fun _ _ _ _ => rfl, fun _ _ => ⟨rfl, rfl⟩⟩

/-- C2 witness: the invariant evaluated at the initial state. -/
theorem state_fields_coupled_witness :
    ((({ bus := 0, child := 0, method := .METHOD_NOTSET } : daemon_state_t)).method =
      .METHOD_NOTSET ↔
      (({ bus := 0, child := 0, method := .METHOD_NOTSET } : daemon_state_t)).child = 0) :=
  state_fields_coupled.1 _ (.init 0)

/-- C3: for every child-termination notification while an operation is in
flight, a normal exit reports the child's raw exit code and a signalled
exit reports 128 + signal number; exactly one `requestCompleted` emission is
made, carrying the label of the in-flight operation, and the daemon state is
cleared to none/absent. -/
theorem child_exit_reports_status (si : signalfd_siginfo) (s : daemon_state_t)
    (hm : s.method ≠ .METHOD_NOTSET) :
    (si.ssi_code = CLD_EXITED →
      (on_child_exit si s).2 = [⟨_method_str_map s.method, si.ssi_status⟩]) ∧
    (si.ssi_code ≠ CLD_EXITED →
      (on_child_exit si s).2 = [⟨_method_str_map s.method, 128 + si.ssi_status⟩]) ∧
    (_method_str_map s.method).isSome = true ∧
    (on_child_exit si s).1.child = 0 ∧
    (on_child_exit si s).1.method = .METHOD_NOTSET := by
  refine ⟨?_, ?_, ?_, rfl, rfl⟩
  · intro h
    simp [on_child_exit, h]
  · intro h
    simp [on_child_exit, h]
  · cases hsm : s.method
    · exact absurd hsm hm
    all_goals simp [_method_str_map]

/-- C3 witness: a child of a running update request exits normally with
code 0; the handler reports label "update" with status 0 and clears the
state. -/
theorem child_exit_reports_status_witness :
    (on_child_exit ⟨1, 0, 5⟩ { bus := 0, child := 5, method := .METHOD_UPDATE }).2 =
      [⟨some "update", 0⟩] ∧
    (on_child_exit ⟨1, 0, 5⟩ { bus := 0, child := 5, method := .METHOD_UPDATE }).1.method =
      .METHOD_NOTSET := by
  have h := child_exit_reports_status ⟨1, 0, 5⟩
    { bus := 0, child := 5, method := .METHOD_UPDATE } (by decide)
  exact ⟨by simpa [_method_str_map] using h.1 rfl, h.2.2.2.2⟩

/-- C4: cancel with no active child replies false and sends no signal; with
an active child, force=false sends SIGINT and force=true sends SIGKILL to
the recorded child pid; cancel never modifies the daemon state. -/
theorem cancel_signals (s : daemon_state_t) (force : Option Bool) :
    (method_cancel s force).state = s ∧
    (s.child = 0 → method_cancel s force = ⟨false, s, []⟩) ∧
    (s.child ≠ 0 → force = some false →
      method_cancel s force = ⟨true, s, [(s.child, SIGINT)]⟩) ∧
    (s.child ≠ 0 → force = some true →
      method_cancel s force = ⟨true, s, [(s.child, SIGKILL)]⟩) := by
  refine ⟨method_cancel_state s force, ?_, ?_, ?_⟩
  · intro h
    simp [method_cancel, h]
  · rintro h rfl
    simp [method_cancel, h]
  · rintro h rfl
    simp [method_cancel, h]

/-- C4 witness: cooperative cancellation of child pid 7 sends SIGINT and
leaves the state alone. -/
theorem cancel_signals_witness :
    method_cancel { bus := 0, child := 7, method := .METHOD_UPDATE } (some false) =
      ⟨true, { bus := 0, child := 7, method := .METHOD_UPDATE }, [(7, SIGINT)]⟩ :=
  (cancel_signals { bus := 0, child := 7, method := .METHOD_UPDATE } (some false)).2.2.1
    (by decide) rfl

/-- C5: for every supplied named option, a name on the operation's string
allow-list with string value V contributes the exact adjacent token pair
`--name`, V to the argument list; a name on no allow-list is skipped
without error and contributes no token. -/
theorem string_option_translation (os ob init : List String)
    (front back : List (String × OptVal)) (name : String) (w : OptVal)
    (hwf : ∀ e ∈ front ++ (name, w) :: back, wellTypedEntry os ob e = true) :
    (∀ v, w = OptVal.str v → is_in_array name os = true →
      bus_message_read_options init (front ++ (name, w) :: back) os ob =
        .ok ((init ++ front.flatMap (optionTokensSpec os ob)) ++
          ["--" ++ name, v] ++ back.flatMap (optionTokensSpec os ob))) ∧
    (is_in_array name os = false → is_in_array name ob = false →
      bus_message_read_options init (front ++ (name, w) :: back) os ob =
        .ok ((init ++ front.flatMap (optionTokensSpec os ob)) ++
          back.flatMap (optionTokensSpec os ob))) := by
  constructor
  · rintro v rfl hs
    rw [read_options_ok os ob _ init hwf]
    simp [optionTokensSpec, hs, List.append_assoc]
  · intro hs hb
    rw [read_options_ok os ob _ init hwf]
    simp [optionTokensSpec, hs, hb, List.append_assoc]

/-- C5 witness: the update allow-list turns url into the adjacent pair, and
an unknown option contributes nothing without aborting. -/
theorem string_option_translation_witness :
    bus_message_read_options ["swupd", "update"] [("url", OptVal.str "http")]
      ["url", "contenturl", "versionurl", "log"] [] =
      .ok (["swupd", "update"] ++ ["--" ++ "url", "http"]) ∧
    bus_message_read_options ["swupd", "update"] [("bogus", OptVal.str "x")]
      ["url", "contenturl", "versionurl", "log"] [] =
      .ok ["swupd", "update"] := by
  constructor
  · simpa using (string_option_translation ["url", "contenturl", "versionurl", "log"] []
      ["swupd", "update"] [] [] "url" (OptVal.str "http") (by decide)).1 "http" rfl (by decide)
  · simpa using (string_option_translation ["url", "contenturl", "versionurl", "log"] []
      ["swupd", "update"] [] [] "bogus" (OptVal.str "x") (by decide)).2 (by decide) (by decide)

/-- C6: a boolean allowed option yields exactly the single token `--name`
when true and no token when false; positional bundle names follow all
option tokens in order, so bundle-add with options list:true and bundle
names a, b constructs exactly the argument list
swupd bundle-add --list a b. -/
theorem bool_option_translation :
    (∀ (os ob init : List String) (front back : List (String × OptVal))
        (name : String) (b : Bool),
      (∀ e ∈ front ++ (name, OptVal.bool b) :: back, wellTypedEntry os ob e = true) →
      is_in_array name os = false → is_in_array name ob = true →
      bus_message_read_options init (front ++ (name, OptVal.bool b) :: back) os ob =
        .ok ((init ++ front.flatMap (optionTokensSpec os ob)) ++
          (if b then ["--" ++ name] else []) ++ back.flatMap (optionTokensSpec os ob))) ∧
    (method_bundle_add { bus := 0, child := 0, method := .METHOD_NOTSET }
        [("list", OptVal.bool true)] ["a", "b"] (.forkOk 1)).spawned =
      some ["swupd", "bundle-add", "--list", "a", "b"] := by
  constructor
  · intro os ob init front back name b hwf hs hb
    rw [read_options_ok os ob _ init hwf]
    cases b <;> simp [optionTokensSpec, hs, hb, List.append_assoc]
  · decide

/-- C6 witness: the verify boolean option fix yields the single token when
true and nothing when false, plus the closed bundle-add scenario. -/
theorem bool_option_translation_witness :
    bus_message_read_options ["swupd", "verify"] [("fix", OptVal.bool true)]
      ["url", "contenturl", "versionurl", "log"] ["fix"] =
      .ok (["swupd", "verify"] ++ ["--" ++ "fix"]) ∧
    bus_message_read_options ["swupd", "verify"] [("fix", OptVal.bool false)]
      ["url", "contenturl", "versionurl", "log"] ["fix"] =
      .ok ["swupd", "verify"] := by
  constructor
  · simpa using bool_option_translation.1 ["url", "contenturl", "versionurl", "log"] ["fix"]
      ["swupd", "verify"] [] [] "fix" true (by decide) (by decide) (by decide)
  · simpa using bool_option_translation.1 ["url", "contenturl", "versionurl", "log"] ["fix"]
      ["swupd", "verify"] [] [] "fix" false (by decide) (by decide) (by decide)

/-- C7: evaluation of the child-side redirection at the standard descriptor
layout (pipe read end 3, write end 4).  Stdout does reach the pipe's write
end, but — because `dup2(STDOUT_FILENO, STDERR_FILENO)` runs before stdout
is pointed at the pipe — stderr ends up at the daemon's inherited stdout,
not at the pipe, contradicting the combined-streams claim. -/
theorem child_redirect_stderr_misses_pipe :
    child_redirect initial_child_fds 3 4 STDOUT_FILENO = .pipeWrite ∧
    child_redirect initial_child_fds 3 4 STDERR_FILENO = .parentStdout ∧
    FdTarget.parentStdout ≠ FdTarget.pipeWrite := by
  exact ⟨rfl, rfl, by decide⟩

/-- C8 counterexample: in the normal in-flight configuration (an update
request running, the exiting flag still false as on every path that has not
entered the releasing-name fallback) the event-loop wait uses the finite
30-second timeout, not an infinite one. -/
theorem busy_wait_timeout_finite :
    (run_bus_event_loop_iter .METHOD_UPDATE false 1).wait_timeout =
      some (TIMEOUT_EXIT_SEC * 1000000) ∧
    (run_bus_event_loop_iter .METHOD_UPDATE false 1).wait_timeout ≠ none := by
  exact ⟨rfl, by decide⟩

/-- C8 amended: the wait timeout is finite whenever the exiting flag is
false (it is infinite only in the releasing-name fallback state), and the
idle-shutdown close attempt is only ever made while the operation kind is
none, so the idle path is unreachable while a request is in flight. -/
theorem idle_close_only_when_idle (m : method_t) (exiting : Bool) (r : Int) :
    ((run_bus_event_loop_iter m exiting r).close_attempted = true →
      m = .METHOD_NOTSET) ∧
    (run_bus_event_loop_iter m false r).wait_timeout =
      some (TIMEOUT_EXIT_SEC * 1000000) ∧
    (run_bus_event_loop_iter m true r).wait_timeout = none := by
  refine ⟨?_, rfl, rfl⟩
  intro h
  simp only [run_bus_event_loop_iter, Bool.and_eq_true, decide_eq_true_eq] at h
  exact h.1.1

/-- C8 amended witness: the close attempt at an idle quiescent iteration,
and the finite timeout during an in-flight iteration. -/
theorem idle_close_only_when_idle_witness :
    method_t.METHOD_NOTSET = .METHOD_NOTSET ∧
    (run_bus_event_loop_iter .METHOD_UPDATE false 0).wait_timeout =
      some (TIMEOUT_EXIT_SEC * 1000000) :=
  ⟨(idle_close_only_when_idle .METHOD_NOTSET false 0).1 (by decide),
   (idle_close_only_when_idle .METHOD_UPDATE false 0).2.1⟩

/-- C9: pipe-creation or fork failure makes `run_swupd` return the I/O
error `-errno` with no child created and no state mutation, and every
dispatcher then replies false with the daemon state unchanged. -/
theorem spawn_failure_no_mutation :
    (∀ m args s e, run_swupd m args s (.pipeFail e) = (.error (-(e : Int)), none)) ∧
    (∀ m args s e, run_swupd m args s (.forkFail e) = (.error (-(e : Int)), none)) ∧
    (∀ s opts e, method_update s opts (.pipeFail e) = ⟨false, s, none⟩ ∧
      method_update s opts (.forkFail e) = ⟨false, s, none⟩) ∧
    (∀ s opts e, method_verify s opts (.pipeFail e) = ⟨false, s, none⟩ ∧
      method_verify s opts (.forkFail e) = ⟨false, s, none⟩) ∧
    (∀ s opts bundle e, method_check_update s opts bundle (.pipeFail e) = ⟨false, s, none⟩ ∧
      method_check_update s opts bundle (.forkFail e) = ⟨false, s, none⟩) ∧
    (∀ s opts bundles e, method_bundle_add s opts bundles (.pipeFail e) = ⟨false, s, none⟩ ∧
      method_bundle_add s opts bundles (.forkFail e) = ⟨false, s, none⟩) ∧
    (∀ s opts bundle e, method_bundle_remove s opts bundle (.pipeFail e) = ⟨false, s, none⟩ ∧
      method_bundle_remove s opts bundle (.forkFail e) = ⟨false, s, none⟩) := by
  refine ⟨fun _ _ _ _ => rfl, fun _ _ _ _ => rfl, ?_, ?_, ?_, ?_, ?_⟩
  · intro s opts e
    constructor <;>
    · unfold method_update
      by_cases hc : s.child ≠ 0
      · simp [hc]
      · simp only [hc, if_false]
        split <;> simp [run_swupd]
  · intro s opts e
    constructor <;>
    · unfold method_verify
      by_cases hc : s.child ≠ 0
      · simp [hc]
      · simp only [hc, if_false]
        split <;> simp [run_swupd]
  · intro s opts bundle e
    constructor <;>
    · unfold method_check_update
      by_cases hc : s.child ≠ 0
      · simp [hc]
      · simp only [hc, if_false]
        split <;> simp [run_swupd]
  · intro s opts bundles e
    constructor <;>
    · unfold method_bundle_add
      by_cases hc : s.child ≠ 0
      · simp [hc]
      · simp only [hc, if_false]
        split <;> simp [run_swupd]
  · intro s opts bundle e
    constructor <;>
    · unfold method_bundle_remove
      by_cases hc : s.child ≠ 0
      · simp [hc]
      · simp only [hc, if_false]
        split <;> simp [run_swupd]

/-- C10: the child-exit handler clears the daemon state to idle regardless
of whether the completion emission succeeds; when the emission fails no
notification is delivered; and a new request is accepted afterwards. -/
theorem child_exit_clears_before_emit (si : signalfd_siginfo)
    (s : daemon_state_t) (emitOk : Bool) :
    (on_child_exit_run si s emitOk).1.child = 0 ∧
    (on_child_exit_run si s emitOk).1.method = .METHOD_NOTSET ∧
    (emitOk = false → (on_child_exit_run si s emitOk).2 = []) ∧
    (method_update (on_child_exit_run si s emitOk).1 [] (.forkOk 1)).reply = true := by
  refine ⟨rfl, rfl, ?_, rfl⟩
  rintro rfl
  rfl

/-- C10 witness: a failed emission after the exit of child 5 delivers no
notification while the state is still cleared. -/
theorem child_exit_clears_before_emit_witness :
    (on_child_exit_run ⟨1, 0, 5⟩ { bus := 0, child := 5, method := .METHOD_UPDATE } false).2 =
      [] ∧
    (on_child_exit_run ⟨1, 0, 5⟩
      { bus := 0, child := 5, method := .METHOD_UPDATE } false).1.child = 0 :=
  ⟨(child_exit_clears_before_emit ⟨1, 0, 5⟩
      { bus := 0, child := 5, method := .METHOD_UPDATE } false).2.2.1 rfl,
   (child_exit_clears_before_emit ⟨1, 0, 5⟩
      { bus := 0, child := 5, method := .METHOD_UPDATE } false).1⟩

end Swupdd
